import Mathlib

/-!
Verification of the SQL validation and write-safety core of a
policy-enforced database access server.

The definitions below are a shallow embedding of the Python sources
`src/validation/sql_validator.py`, `src/validation/rules.py` and
`src/database/executor.py`.  Pure string manipulation is modelled over
`List Char`; the regular expressions used by the source are simple
word-boundary and anchored patterns, embedded as explicit scanning
functions.  Database interaction (the planner estimate and the actual
execution) is modelled as oracle parameters passed to the executor
functions, since the validator and the gating logic never depend on
anything else of the connection.
-/

namespace PgMcp

/-- A regex word character for the source's `\b`-patterns: ASCII
alphanumeric or underscore (the source applies the patterns to SQL text,
for which the ASCII word class is the relevant one). -/
def isWordChar (c : Char) : Bool := c.isAlphanum || c == '_'

/-- Python `str.upper()` restricted to per-character ASCII uppercasing. -/
def strUpper (s : String) : String := ⟨s.data.map Char.toUpper⟩

/-- Python `str.lower()` restricted to per-character ASCII lowercasing. -/
def strLower (s : String) : String := ⟨s.data.map Char.toLower⟩

/-- `isLeadOf p l` : the char list `p` occurs at the very start of `l`
(Boolean version of list prefixhood). -/
def isLeadOf : List Char → List Char → Bool
  | [], _ => true
  | _ :: _, [] => false
  | a :: ps, b :: ts => a == b && isLeadOf ps ts

/-- Case-insensitive variant of `isLeadOf`: the pattern `p` is given in
upper case and each text character is uppercased before comparison
(embedding of `re.IGNORECASE` matching of a literal pattern). -/
def isLeadOfCI : List Char → List Char → Bool
  | [], _ => true
  | _ :: _, [] => false
  | a :: ps, b :: ts => a == b.toUpper && isLeadOfCI ps ts

/-- `occursIn p l` : `p` occurs contiguously somewhere in `l`
(Python's `pat in s` substring test). -/
def occursIn (p : List Char) : List Char → Bool
  | [] => isLeadOf p []
  | c :: ts => isLeadOf p (c :: ts) || occursIn p ts

/-- Python `pat in s` on strings. -/
def strContains (s pat : String) : Bool := occursIn pat.data s.data

/-- After a candidate match of `kw` at the head of `t`, the character
that follows the match (if any) must not be a word character — the
closing `\b` of the pattern. -/
def wordTailOk (kw t : List Char) : Bool :=
  match t.drop kw.length with
  | [] => true
  | d :: _ => !isWordChar d

/-- Scan for a `\b kw \b` regex match.  `prevIsWord` records whether the
character just before the current position is a word character (false at
the start of the string), which is the opening `\b`. -/
def containsWordAux (kw : List Char) (prevIsWord : Bool) : List Char → Bool
  | [] => false
  | c :: ts =>
    (!prevIsWord && isLeadOf kw (c :: ts) && wordTailOk kw (c :: ts))
      || containsWordAux kw (isWordChar c) ts

/-- `re.search(r'\b' + kw + r'\b', s)` succeeds (for keywords made of
word characters, possibly with internal spaces such as
`START TRANSACTION`). -/
def containsWord (s kw : String) : Bool := containsWordAux kw.data false s.data

/-- Number of `\b kw \b` matches, as counted by `re.findall` (for the
letter-only keywords used by the source, matches cannot overlap, so
counting all matching positions coincides with `findall`). -/
def countWordAux (kw : List Char) (prevIsWord : Bool) : List Char → Nat
  | [] => 0
  | c :: ts =>
    (if !prevIsWord && isLeadOf kw (c :: ts) && wordTailOk kw (c :: ts) then 1 else 0)
      + countWordAux kw (isWordChar c) ts

/-- `len(re.findall(r'\b' + kw + r'\b', s))`. -/
def countWord (s kw : String) : Nat := countWordAux kw.data false s.data

/-- Python `s.count(c)` for a single character. -/
def countChar (c : Char) (s : String) : Nat :=
  (s.data.filter (fun d => d == c)).length

/-- Drop leading whitespace of a char list. -/
def ltrimChars (l : List Char) : List Char := l.dropWhile Char.isWhitespace

/-- Drop trailing whitespace of a char list. -/
def rtrimChars (l : List Char) : List Char :=
  (l.reverse.dropWhile Char.isWhitespace).reverse

/-- Python `str.strip()` (whitespace at both ends). -/
def strTrim (s : String) : String := ⟨rtrimChars (ltrimChars s.data)⟩

/-- Python `s.rstrip(";")`: drop trailing semicolon characters. -/
def rstripSemi (s : String) : String :=
  ⟨(s.data.reverse.dropWhile (fun c => c == ';')).reverse⟩

/-- Collapse whitespace runs to single spaces; `pendingSpace` records
that a whitespace run is open and a separating space must be emitted
before the next non-whitespace character. -/
def normSpaceAux (pendingSpace : Bool) : List Char → List Char
  | [] => []
  | c :: ts =>
    if Char.isWhitespace c then normSpaceAux true ts
    else if pendingSpace then ' ' :: c :: normSpaceAux false ts
    else c :: normSpaceAux false ts

/-- Python `" ".join(s.split())`: trim and collapse all whitespace runs
to single spaces. -/
def normSpace (s : String) : String := ⟨normSpaceAux false (ltrimChars s.data)⟩

/-- Scan for the first position where the anchored pattern
`pat` (upper-case literal, spaces standing for the `\s+` gaps, which in
the whitespace-normalized input are single spaces) matches
case-insensitively and is followed by a non-empty `\w+` capture; return
that capture.  Embeds `re.search(pat + r'(\w+)', cleaned, re.IGNORECASE)`. -/
def extractCapAux (pat : List Char) : List Char → Option (List Char)
  | [] => none
  | c :: ts =>
    if isLeadOfCI pat (c :: ts) then
      match ((c :: ts).drop pat.length).takeWhile isWordChar with
      | [] => extractCapAux pat ts
      | d :: ds => some (d :: ds)
    else extractCapAux pat ts

/-! ## rules.py -/

/-- `rules.DDL_FORBIDDEN_KEYWORDS` (always blocked). -/
def DDL_FORBIDDEN_KEYWORDS : List String :=
  ["CREATE", "ALTER", "DROP", "RENAME", "TRUNCATE",
   "GRANT", "REVOKE", "DENY",
   "COMMIT", "ROLLBACK", "SAVEPOINT", "BEGIN", "START TRANSACTION",
   "EXECUTE", "EXEC", "CALL",
   "COPY", "LOAD", "IMPORT", "EXPORT"]

/-- `rules.DML_WRITE_KEYWORDS` (blocked unless writes are enabled). -/
def DML_WRITE_KEYWORDS : List String :=
  ["INSERT", "UPDATE", "DELETE", "REPLACE", "MERGE", "UPSERT"]

/-- `rules.FORBIDDEN_FUNCTIONS`. -/
def FORBIDDEN_FUNCTIONS : List String :=
  ["pg_read_file", "pg_write_file", "pg_ls_dir", "pg_sleep",
   "lo_import", "lo_export", "dblink", "dblink_exec"]

/-- `rules.MAX_JOINS`. -/
def MAX_JOINS : Nat := 10

/-- `rules.MAX_SUBQUERIES`. -/
def MAX_SUBQUERIES : Nat := 5

/-- `rules.MAX_UNIONS`. -/
def MAX_UNIONS : Nat := 3

/-- `rules.MAX_QUERY_LENGTH`. -/
def MAX_QUERY_LENGTH : Nat := 5000

/-! ## sql_validator.py -/

/-- The distinct `ValidationError` reasons raised by the validator (the
source raises `ValidationError` with a message string; the constructors
below are in bijection with the raise sites and carry the data
interpolated into the message). -/
inductive ValidationError where
  | tooLong
  | forbiddenKeyword (kw : String)
  | forbiddenFunction (f : String)
  | invalidSql
  | emptySql
  | unknownCommand
  | selectNotAllowed
  | operationNotAllowed (qt : String)
  | missingWhere (qt : String)
  | tableNotWritable (t : String)
  | tooManyJoins (n : Nat)
  | tooManySubqueries
  | tooManyUnions (n : Nat)
  | unbalancedParens (o c : Nat)
  | unbalancedQuotes
  | parseFailed
  | estimateExceedsLimit (est : Nat)
deriving DecidableEq, Repr

/-- The configuration state of a `SQLValidator` instance after
`__init__` (the three constructor arguments, with the `or {"SELECT"}`
defaulting applied by `SQLValidator.mkInit` below). -/
structure SQLValidator where
  strict_mode : Bool
  allowed_operations : List String
  writable_tables : Option (List String)

/-- `SQLValidator.__init__`: `allowed_operations or {"SELECT"}`
(a `None` or empty argument defaults to `{"SELECT"}`). -/
def SQLValidator.mkInit (strict : Bool) (ops : Option (List String))
    (wt : Option (List String)) : SQLValidator :=
  ⟨strict,
   match ops with
   | none => ["SELECT"]
   | some l => if l.isEmpty then ["SELECT"] else l,
   wt⟩

/-- `self.write_enabled = bool(self.allowed_operations - {"SELECT"})`. -/
def SQLValidator.write_enabled (v : SQLValidator) : Bool :=
  v.allowed_operations.any (fun op => !(op == "SELECT"))

/-- `SQLValidator._check_length`. -/
def checkLength (sql : String) : Option ValidationError :=
  if sql.data.length > MAX_QUERY_LENGTH then some .tooLong else none

/-- `SQLValidator._check_ddl_forbidden`: unconditional word-boundary
scan for DDL keywords over `sql.upper()`, then (only when writes are not
enabled) the same scan for DML write keywords. -/
def checkDdlForbidden (v : SQLValidator) (sql : String) : Option ValidationError :=
  match DDL_FORBIDDEN_KEYWORDS.find? (fun kw => containsWord (strUpper sql) kw) with
  | some kw => some (.forbiddenKeyword kw)
  | none =>
    if v.write_enabled then none
    else
      match DML_WRITE_KEYWORDS.find? (fun kw => containsWord (strUpper sql) kw) with
      | some kw => some (.forbiddenKeyword kw)
      | none => none

/-- `SQLValidator._check_forbidden_functions`: case-insensitive
substring scan. -/
def checkForbiddenFunctions (sql : String) : Option ValidationError :=
  match FORBIDDEN_FUNCTIONS.find? (fun f => strContains (strLower sql) (strLower f)) with
  | some f => some (.forbiddenFunction f)
  | none => none

/-- `SQLValidator._get_query_type`: `sql.strip().upper().startswith` on
the sequence INSERT, UPDATE, DELETE, SELECT, WITH. -/
def getQueryType (sql : String) : String :=
  if isLeadOf "INSERT".data (strUpper (strTrim sql)).data then "INSERT"
  else if isLeadOf "UPDATE".data (strUpper (strTrim sql)).data then "UPDATE"
  else if isLeadOf "DELETE".data (strUpper (strTrim sql)).data then "DELETE"
  else if isLeadOf "SELECT".data (strUpper (strTrim sql)).data then "SELECT"
  else if isLeadOf "WITH".data (strUpper (strTrim sql)).data then "WITH"
  else "UNKNOWN"

/-- `SQLValidator._is_write_query`. -/
def isWriteQuery (sql : String) : Bool :=
  isLeadOf "INSERT".data (strUpper (strTrim sql)).data
    || isLeadOf "UPDATE".data (strUpper (strTrim sql)).data
    || isLeadOf "DELETE".data (strUpper (strTrim sql)).data

/-- `SQLValidator._check_allowed_operations`.  `sqlparse.parse` yields no
statement exactly for the empty string; a parse of non-empty, all
whitespace input has no non-whitespace token.  The per-statement loop
re-computes `_get_query_type` on the whole input each iteration, so one
iteration decides the outcome. -/
def checkAllowedOperations (v : SQLValidator) (sql : String) : Option ValidationError :=
  if sql.data.isEmpty then some .invalidSql
  else if sql.data.all Char.isWhitespace then some .emptySql
  else if getQueryType sql == "UNKNOWN" then some .unknownCommand
  else if getQueryType sql == "WITH" then
    if v.allowed_operations.contains "SELECT" then none else some .selectNotAllowed
  else if v.allowed_operations.contains (getQueryType sql) then none
  else some (.operationNotAllowed (getQueryType sql))

/-- `SQLValidator._extract_write_target_table`: whitespace-normalize,
then apply the verb-specific anchored `re.IGNORECASE` pattern
(`INSERT\s+INTO\s+(\w+)`, `UPDATE\s+(\w+)`, `DELETE\s+FROM\s+(\w+)`). -/
def extractWriteTargetTable (sql queryType : String) : Option String :=
  if queryType == "INSERT" then
    (extractCapAux "INSERT INTO ".data (normSpace sql).data).map (fun l => String.mk l)
  else if queryType == "UPDATE" then
    (extractCapAux "UPDATE ".data (normSpace sql).data).map (fun l => String.mk l)
  else if queryType == "DELETE" then
    (extractCapAux "DELETE FROM ".data (normSpace sql).data).map (fun l => String.mk l)
  else none

/-- `SQLValidator._check_write_safety`: WHERE is compulsory for
UPDATE/DELETE (a substring check on `sql.upper().strip()`), and when a
`writable_tables` allowlist is configured, an extracted target table
must be a case-insensitive member; when no target can be extracted the
source's `if target_table and ...` skips the allowlist check. -/
def checkWriteSafety (v : SQLValidator) (sql : String) : Option ValidationError :=
  if (getQueryType sql == "UPDATE" || getQueryType sql == "DELETE")
      && !(strContains (strTrim (strUpper sql)) "WHERE") then
    some (.missingWhere (getQueryType sql))
  else
    match v.writable_tables with
    | none => none
    | some ws =>
      match extractWriteTargetTable sql (getQueryType sql) with
      | some t =>
        if (ws.map strLower).contains (strLower t) then none
        else some (.tableNotWritable t)
      | none => none

/-- `SQLValidator._check_complexity`: JOIN word count, then the
"subquery" check — which the source computes as
`sql.count('(') - sql.count(')')` compared in absolute value — then the
UNION word count. -/
def checkComplexity (sql : String) : Option ValidationError :=
  if countWord (strUpper sql) "JOIN" > MAX_JOINS then
    some (.tooManyJoins (countWord (strUpper sql) "JOIN"))
  else if (((countChar '(' sql : Int) - (countChar ')' sql : Int)).natAbs
      > MAX_SUBQUERIES) then
    some .tooManySubqueries
  else if countWord (strUpper sql) "UNION" > MAX_UNIONS then
    some (.tooManyUnions (countWord (strUpper sql) "UNION"))
  else none

/-- `SQLValidator._check_syntax`: `sqlparse.parse` yields no statement
exactly for the empty string; then balanced parentheses and an even
single-quote count. -/
def checkSyntax (sql : String) : Option ValidationError :=
  if sql.data.isEmpty then some .parseFailed
  else if countChar '(' sql ≠ countChar ')' sql then
    some (.unbalancedParens (countChar '(' sql) (countChar ')' sql))
  else if (countChar (Char.ofNat 39) sql) % 2 ≠ 0 then some .unbalancedQuotes
  else none

/-- First raised error of a sequence of checks run in order. -/
def firstErr : List (Option ValidationError) → Option ValidationError
  | [] => none
  | some e :: _ => some e
  | none :: rest => firstErr rest

/-- The try-block of `SQLValidator.validate`: the checks in source
order, stopping at the first raised `ValidationError` (write safety only
for write statements, complexity only in strict mode). -/
def runChecks (v : SQLValidator) (sql : String) : Option ValidationError :=
  firstErr
    [checkLength sql,
     checkDdlForbidden v sql,
     checkForbiddenFunctions sql,
     checkAllowedOperations v sql,
     if isWriteQuery sql then checkWriteSafety v sql else none,
     if v.strict_mode then checkComplexity sql else none,
     checkSyntax sql]

/-- `SQLValidator.validate`: returns `(True, None)` when every check
passes, and `(False, message)` for the first failing check (the `except`
clauses convert every raised error into such a pair, so the function is
total). -/
def validate (v : SQLValidator) (sql : String) : Bool × Option ValidationError :=
  match runChecks v sql with
  | none => (true, none)
  | some e => (false, some e)

/-! ## executor.py

Database interaction is abstracted: the planner row estimate obtained by
`_estimate_affected_rows` (which catches every error and returns `None`
on failure) enters as an `Option Nat` oracle argument, and the row count
reported by the engine for a successfully executed mutation enters as a
`Nat` argument.  `sanitize_sql` (a pure reformatting through the
external `sqlparse` library, consumed only by the database) enters as
the `sanitized` argument of `preview_write`. -/

/-- The result dictionary of a successfully executed write. -/
structure WriteResult where
  success : Bool
  affected_rows : Nat
  query_type : String
  target_table : Option String
deriving DecidableEq, Repr

/-- Outcome of `QueryExecutor.execute_write`: either a raised
`ValidationError` before touching the database (carrying the message of
the failed check, or the estimate-ceiling message), or an executed
mutation. -/
inductive WriteOutcome where
  | rejected (e : Option ValidationError)
  | executed (r : WriteResult)
deriving DecidableEq, Repr

/-- The preview dictionary built by `QueryExecutor.preview_write`. -/
structure WritePreview where
  valid : Bool
  query_type : Option String
  sanitized_sql : Option String
  target_table : Option String
  estimated_rows : Option Nat
  error : Option ValidationError
deriving DecidableEq, Repr

/-- `QueryExecutor.preview_write` (with `validate=True`): validate,
sanitize, classify, extract the target, attach the estimate, and apply
the `max_write_rows` ceiling when an estimate is available. -/
def preview_write (v : SQLValidator) (max_write_rows : Nat) (sql sanitized : String)
    (estimate : Option Nat) : WritePreview :=
  match validate v sql with
  | (false, e) => ⟨false, none, none, none, none, e⟩
  | (true, _) =>
    match estimate with
    | some n =>
      if n > max_write_rows then
        ⟨false, some (getQueryType sql), some sanitized,
         extractWriteTargetTable sql (getQueryType sql), some n,
         some (.estimateExceedsLimit n)⟩
      else
        ⟨true, some (getQueryType sql), some sanitized,
         extractWriteTargetTable sql (getQueryType sql), some n, none⟩
    | none =>
      ⟨true, some (getQueryType sql), some sanitized,
       extractWriteTargetTable sql (getQueryType sql), none, none⟩

/-- `QueryExecutor.execute_write` (with `validate=True`): validate,
classify, re-estimate, and raise when the estimate exceeds
`max_write_rows`; otherwise execute and report the engine's row count. -/
def execute_write (v : SQLValidator) (max_write_rows : Nat) (sql : String)
    (estimate : Option Nat) (db_affected : Nat) : WriteOutcome :=
  match validate v sql with
  | (false, e) => .rejected e
  | (true, _) =>
    match estimate with
    | some n =>
      if n > max_write_rows then .rejected (some (.estimateExceedsLimit n))
      else .executed ⟨true, db_affected,
        getQueryType sql, extractWriteTargetTable sql (getQueryType sql)⟩
    | none =>
      .executed ⟨true, db_affected,
        getQueryType sql, extractWriteTargetTable sql (getQueryType sql)⟩

/-- The fields a `QueryExecutor` instance holds after `__init__`
(its `db` handle is not part of the decision state and is abstracted by
the oracle arguments). -/
structure QueryExecutorState where
  validator : SQLValidator
  timeout : Nat
  max_rows : Nat
  max_write_rows : Nat

/-- `preview_write` as a state-passing method on the executor object:
the body of the source method assigns no attribute of `self`, so the
object state after the call is the state before it. -/
def preview_write_m (s : QueryExecutorState) (sql sanitized : String)
    (estimate : Option Nat) : QueryExecutorState × WritePreview :=
  (s, preview_write s.validator s.max_write_rows sql sanitized estimate)

/-- `execute_write` as a state-passing method on the executor object
(the body likewise assigns no attribute of `self`). -/
def execute_write_m (s : QueryExecutorState) (sql : String)
    (estimate : Option Nat) (db_affected : Nat) :
    QueryExecutorState × WriteOutcome :=
  (s, execute_write s.validator s.max_write_rows sql estimate db_affected)

/-- Run a sequence of `preview_write` calls (each given as statement
text, sanitized text and estimate oracle), threading the executor
state. -/
def run_previews (s : QueryExecutorState) :
    List (String × String × Option Nat) → QueryExecutorState
  | [] => s
  | (sql, sanitized, est) :: rest =>
    run_previews (preview_write_m s sql sanitized est).1 rest

/-- `QueryExecutor._ensure_limit`: pass the statement through when it
already contains `LIMIT` (case-insensitive substring check), otherwise
strip trailing semicolons and append a `LIMIT max_rows` clause. -/
def ensure_limit (max_rows : Nat) (sql : String) : String :=
  if strContains (strUpper sql) "LIMIT" then sql
  else rstripSemi sql ++ " LIMIT " ++ toString max_rows ++ ";"

/-- Modelled from the spec: the "parenthesis-depth-derived subquery
nesting" of a statement, i.e. the maximum parenthesis nesting depth
reached while scanning it (the quantity the spec's complexity ceiling
speaks about; the source computes something else). -/
def maxParenDepthAux : List Char → Nat → Nat → Nat
  | [], _, m => m
  | c :: ts, d, m =>
    if c == '(' then maxParenDepthAux ts (d + 1) (max m (d + 1))
    else if c == ')' then maxParenDepthAux ts (d - 1) m
    else maxParenDepthAux ts d m

/-- Modelled from the spec: maximum parenthesis nesting depth. -/
def maxParenDepth (sql : String) : Nat := maxParenDepthAux sql.data 0 0

/-- A strict read-only validator (the server's read policy). -/
def cfgRO : SQLValidator := ⟨true, ["SELECT"], none⟩

/-- A strict write-enabled validator with no table allowlist. -/
def cfgRW : SQLValidator := ⟨true, ["SELECT", "INSERT", "UPDATE", "DELETE"], none⟩

/-- A strict write-enabled validator whose allowlist holds only the
table `orders`. -/
def cfgRWOrders : SQLValidator :=
  ⟨true, ["SELECT", "INSERT", "UPDATE", "DELETE"], some ["orders"]⟩

/-! ## Helper lemmas -/

theorem strData_append (s t : String) : (s ++ t).data = s.data ++ t.data := rfl

theorem isLeadOf_iff (p l : List Char) : isLeadOf p l = true ↔ p <+: l := by
  induction p generalizing l with
  | nil => simp [isLeadOf]
  | cons a ps ih =>
    cases l with
    | nil => simp [isLeadOf]
    | cons b ts => simp [isLeadOf, ih, List.cons_prefix_cons]

theorem occursIn_iff (p l : List Char) : occursIn p l = true ↔ p <:+: l := by
  induction l with
  | nil => simp [occursIn, isLeadOf_iff]
  | cons c ts ih => simp [occursIn, isLeadOf_iff, ih, List.infix_cons_iff]

theorem rtrimChars_isLead (l : List Char) : rtrimChars l <+: l := by
  have h2 := List.dropWhile_suffix (l := l.reverse) Char.isWhitespace
  have h3 := List.reverse_prefix.mpr h2
  simpa [rtrimChars] using h3

theorem strContains_of_trim (s pat : String)
    (h : strContains (strTrim s) pat = true) : strContains s pat = true := by
  unfold strContains strTrim at *
  rw [occursIn_iff] at h ⊢
  refine h.trans ?_
  have h1 : rtrimChars (ltrimChars s.data) <+: ltrimChars s.data := rtrimChars_isLead _
  exact h1.isInfix.trans (List.dropWhile_suffix Char.isWhitespace).isInfix

theorem isLeadOf_self_append (p r : List Char) : isLeadOf p (p ++ r) = true := by
  induction p with
  | nil => rfl
  | cons a ps ih => simp [isLeadOf, ih]

theorem occursIn_append_left (s p t : List Char) (h : occursIn p t = true) :
    occursIn p (s ++ t) = true := by
  induction s with
  | nil => simpa
  | cons c cs ih => simp [occursIn, ih]

theorem occursIn_limit_chunk (rest : List Char) :
    occursIn "LIMIT".data (" LIMIT ".data ++ rest) = true := by
  have h2 : " LIMIT ".data ++ rest = ' ' :: ("LIMIT".data ++ (' ' :: rest)) := rfl
  rw [h2]
  simp [occursIn, isLeadOf]

theorem strContains_upper_limit (x m : String) :
    strContains (strUpper (x ++ " LIMIT " ++ m ++ ";")) "LIMIT" = true := by
  show occursIn "LIMIT".data ((x ++ " LIMIT " ++ m ++ ";").data.map Char.toUpper) = true
  have hd : (x ++ " LIMIT " ++ m ++ ";").data
      = x.data ++ (" LIMIT ".data ++ (m.data ++ ";".data)) := by
    simp [strData_append]
  rw [hd, List.map_append]
  apply occursIn_append_left
  rw [List.map_append]
  have hu : " LIMIT ".data.map Char.toUpper = " LIMIT ".data := rfl
  rw [hu]
  exact occursIn_limit_chunk _

theorem firstErr_eq_none_iff (l : List (Option ValidationError)) :
    firstErr l = none ↔ ∀ o ∈ l, o = none := by
  induction l with
  | nil => simp [firstErr]
  | cons a rest ih => cases a <;> simp [firstErr, ih]

theorem runChecks_eq_none_iff (v : SQLValidator) (sql : String) :
    runChecks v sql = none ↔
      (checkLength sql = none
        ∧ checkDdlForbidden v sql = none
        ∧ checkForbiddenFunctions sql = none
        ∧ checkAllowedOperations v sql = none
        ∧ (isWriteQuery sql = true → checkWriteSafety v sql = none)
        ∧ (v.strict_mode = true → checkComplexity sql = none)
        ∧ checkSyntax sql = none) := by
  unfold runChecks
  rw [firstErr_eq_none_iff]
  simp [List.forall_mem_cons, ite_eq_right_iff]

theorem validate_fst_true_iff (v : SQLValidator) (sql : String) :
    (validate v sql).1 = true ↔ runChecks v sql = none := by
  unfold validate
  cases h : runChecks v sql <;> simp

theorem validate_eq_of_fst_true (v : SQLValidator) (sql : String)
    (h : (validate v sql).1 = true) : validate v sql = (true, none) := by
  unfold validate at *
  cases e : runChecks v sql with
  | none => rfl
  | some x => rw [e] at h; simp at h

theorem validate_false_of_fst_false (v : SQLValidator) (sql : String)
    (h : (validate v sql).1 = false) : ∃ e, validate v sql = (false, some e) := by
  unfold validate at *
  cases e : runChecks v sql with
  | none => rw [e] at h; simp at h
  | some x => exact ⟨x, rfl⟩

theorem ddl_scan_clear (v : SQLValidator) (sql : String)
    (h : checkDdlForbidden v sql = none) :
    ∀ kw ∈ DDL_FORBIDDEN_KEYWORDS, containsWord (strUpper sql) kw = false := by
  unfold checkDdlForbidden at h
  cases e : DDL_FORBIDDEN_KEYWORDS.find? (fun kw => containsWord (strUpper sql) kw) with
  | some kw => rw [e] at h; simp at h
  | none =>
    intro kw hm
    have := List.find?_eq_none.mp e kw hm
    simpa using this

theorem dml_scan_clear (v : SQLValidator) (sql : String)
    (hw : v.write_enabled = false) (h : checkDdlForbidden v sql = none) :
    ∀ kw ∈ DML_WRITE_KEYWORDS, containsWord (strUpper sql) kw = false := by
  unfold checkDdlForbidden at h
  cases e : DDL_FORBIDDEN_KEYWORDS.find? (fun kw => containsWord (strUpper sql) kw) with
  | some kw => rw [e] at h; simp at h
  | none =>
    rw [e, hw] at h
    simp only [Bool.false_eq_true, if_false] at h
    cases e2 : DML_WRITE_KEYWORDS.find? (fun kw => containsWord (strUpper sql) kw) with
    | some kw => rw [e2] at h; simp at h
    | none =>
      intro kw hm
      have := List.find?_eq_none.mp e2 kw hm
      simpa using this

theorem isWrite_of_qt (sql : String)
    (h : getQueryType sql = "UPDATE" ∨ getQueryType sql = "DELETE") :
    isWriteQuery sql = true := by
  unfold isWriteQuery
  by_cases hI : isLeadOf "INSERT".data (strUpper (strTrim sql)).data = true
  · simp [hI]
  · by_cases hU : isLeadOf "UPDATE".data (strUpper (strTrim sql)).data = true
    · simp [hU]
    · by_cases hD : isLeadOf "DELETE".data (strUpper (strTrim sql)).data = true
      · simp [hD]
      · exfalso
        unfold getQueryType at h
        rcases h with h | h <;> simp [hI, hU, hD] at h <;>
          split at h <;> (try split at h) <;> simp_all

/-! ## Claim theorems -/

/-- C1: every input string containing one of the DDL keywords CREATE,
DROP, ALTER, TRUNCATE as a whole word (in any letter case, hence as a
word of the uppercased text) is rejected by `validate` under every
validator configuration. -/
theorem ddl_keyword_always_rejected (v : SQLValidator) (sql kw : String)
    (hk : kw ∈ (["CREATE", "DROP", "ALTER", "TRUNCATE"] : List String))
    (hw : containsWord (strUpper sql) kw = true) :
    (validate v sql).1 = false := by
  have hmem : kw ∈ DDL_FORBIDDEN_KEYWORDS := by fin_cases hk <;> decide
  cases hb : (validate v sql).1 with
  | false => rfl
  | true =>
    exfalso
    have hrc := (validate_fst_true_iff v sql).mp hb
    have hddl := ((runChecks_eq_none_iff v sql).mp hrc).2.1
    have hclear := ddl_scan_clear v sql hddl kw hmem
    simp [hw] at hclear

theorem ddl_keyword_always_rejected_wit :
    ("DROP" ∈ (["CREATE", "DROP", "ALTER", "TRUNCATE"] : List String)
        ∧ containsWord (strUpper "  dRoP table users ") "DROP" = true)
      ∧ (validate cfgRO "  dRoP table users ").1 = false :=
  ⟨⟨by decide, by decide⟩,
    ddl_keyword_always_rejected cfgRO "  dRoP table users " "DROP"
      (by decide) (by decide)⟩

/-- C7: under a validator whose writes are not enabled, any statement
containing a DML write keyword (INSERT, UPDATE, DELETE, REPLACE, MERGE,
UPSERT) as a whole word of the uppercased text is rejected, whatever
the statement's leading verb. -/
theorem readonly_dml_keyword_rejected (v : SQLValidator) (sql kw : String)
    (hk : kw ∈ DML_WRITE_KEYWORDS) (hwe : v.write_enabled = false)
    (hw : containsWord (strUpper sql) kw = true) :
    (validate v sql).1 = false := by
  cases hb : (validate v sql).1 with
  | false => rfl
  | true =>
    exfalso
    have hrc := (validate_fst_true_iff v sql).mp hb
    have hddl := ((runChecks_eq_none_iff v sql).mp hrc).2.1
    have hclear := dml_scan_clear v sql hwe hddl kw hk
    simp [hw] at hclear

theorem readonly_dml_keyword_rejected_wit :
    ("UPDATE" ∈ DML_WRITE_KEYWORDS
        ∧ cfgRO.write_enabled = false
        ∧ containsWord (strUpper "SELECT 1; UPDATE t SET x = 2") "UPDATE" = true)
      ∧ (validate cfgRO "SELECT 1; UPDATE t SET x = 2").1 = false :=
  ⟨⟨by decide, by decide, by decide⟩,
    readonly_dml_keyword_rejected cfgRO "SELECT 1; UPDATE t SET x = 2" "UPDATE"
      (by decide) (by decide) (by decide)⟩

/-- C2 counterexample: `DELETE FROM nowhere` is a DELETE statement with
no WHERE token (no whole-word WHERE), yet a write-enabled validator
accepts it, because the source tests WHERE as a substring and the table
name `nowhere` contains it. -/
theorem update_delete_where_token_cex :
    getQueryType "DELETE FROM nowhere" = "DELETE"
      ∧ containsWord (strUpper "DELETE FROM nowhere") "WHERE" = false
      ∧ cfgRW.write_enabled = true
      ∧ validate cfgRW "DELETE FROM nowhere" = (true, none) := by decide

/-- C2 amended: every UPDATE or DELETE statement that lacks WHERE as a
case-insensitive substring is rejected by a write-enabled validator. -/
theorem update_delete_no_where_substring_rejected (v : SQLValidator) (sql : String)
    (hq : getQueryType sql = "UPDATE" ∨ getQueryType sql = "DELETE")
    (_hwe : v.write_enabled = true)
    (hnw : strContains (strUpper sql) "WHERE" = false) :
    (validate v sql).1 = false := by
  cases hb : (validate v sql).1 with
  | false => rfl
  | true =>
    exfalso
    have hrc := (validate_fst_true_iff v sql).mp hb
    have hws := ((runChecks_eq_none_iff v sql).mp hrc).2.2.2.2.1 (isWrite_of_qt sql hq)
    unfold checkWriteSafety at hws
    have hnw2 : strContains (strTrim (strUpper sql)) "WHERE" = false := by
      cases hc : strContains (strTrim (strUpper sql)) "WHERE"
      · rfl
      · exact absurd (strContains_of_trim _ _ hc) (by simp [hnw])
    rcases hq with hq | hq <;> rw [hq] at hws <;> simp [hnw2] at hws

theorem update_delete_no_where_substring_rejected_wit :
    ((getQueryType "DELETE FROM users" = "UPDATE"
          ∨ getQueryType "DELETE FROM users" = "DELETE")
        ∧ cfgRW.write_enabled = true
        ∧ strContains (strUpper "DELETE FROM users") "WHERE" = false)
      ∧ (validate cfgRW "DELETE FROM users").1 = false :=
  ⟨⟨Or.inr (by decide), by decide, by decide⟩,
    update_delete_no_where_substring_rejected cfgRW "DELETE FROM users"
      (Or.inr (by decide)) (by decide) (by decide)⟩

/-- C3 counterexample: with the allowlist `{orders}` configured, the
write statement `INSERT t VALUES (1)` has no extractable target table
(the `INSERT INTO` pattern does not match), yet validation accepts it:
the source's `if target_table and ...` skips the allowlist check instead
of rejecting. -/
theorem allowlist_unresolved_target_cex :
    cfgRWOrders.writable_tables = some ["orders"]
      ∧ isWriteQuery "INSERT t VALUES (1)" = true
      ∧ extractWriteTargetTable "INSERT t VALUES (1)"
          (getQueryType "INSERT t VALUES (1)") = none
      ∧ validate cfgRWOrders "INSERT t VALUES (1)" = (true, none) := by decide

/-- C3 amended: for a write statement under a configured allowlist, an
extracted target table that is not a case-insensitive member is
rejected; but when no target table can be extracted the allowlist check
is skipped — the write-safety guard behaves exactly as if no allowlist
were configured, and in particular does not reject on that ground. -/
theorem allowlist_target_behavior (v : SQLValidator) (ws : List String) (sql : String)
    (hws : v.writable_tables = some ws) (hw : isWriteQuery sql = true) :
    (∀ t, extractWriteTargetTable sql (getQueryType sql) = some t →
        (ws.map strLower).contains (strLower t) = false →
        (validate v sql).1 = false)
      ∧ (extractWriteTargetTable sql (getQueryType sql) = none →
          checkWriteSafety v sql
            = checkWriteSafety ⟨v.strict_mode, v.allowed_operations, none⟩ sql) := by
  constructor
  · intro t hext hmem
    cases hb : (validate v sql).1 with
    | false => rfl
    | true =>
      exfalso
      have hrc := (validate_fst_true_iff v sql).mp hb
      have hcs := ((runChecks_eq_none_iff v sql).mp hrc).2.2.2.2.1 hw
      unfold checkWriteSafety at hcs
      rw [hws, hext] at hcs
      split at hcs
      · simp at hcs
      · simp at hcs hmem
        obtain ⟨x, hx, he⟩ := hcs
        exact hmem x hx he
  · intro hext
    unfold checkWriteSafety
    rw [hws, hext]

theorem allowlist_target_behavior_wit :
    (validate cfgRWOrders "DELETE FROM customers WHERE id = 1").1 = false
      ∧ checkWriteSafety cfgRWOrders "INSERT t VALUES (1)"
          = checkWriteSafety ⟨cfgRWOrders.strict_mode,
              cfgRWOrders.allowed_operations, none⟩ "INSERT t VALUES (1)" :=
  ⟨(allowlist_target_behavior cfgRWOrders ["orders"] "DELETE FROM customers WHERE id = 1"
        rfl (by decide)).1 "customers" (by decide) (by decide),
    (allowlist_target_behavior cfgRWOrders ["orders"] "INSERT t VALUES (1)"
        rfl (by decide)).2 (by decide)⟩

/-- C9 counterexample: `SELECT ((((((1))))))` has parenthesis nesting
depth 6, above `MAX_SUBQUERIES = 5`, yet a strict-mode validator accepts
it: the source compares the absolute difference of the two parenthesis
counts (0 here), not the nesting depth. -/
theorem subquery_nesting_cex :
    cfgRO.strict_mode = true
      ∧ maxParenDepth "SELECT ((((((1))))))" > MAX_SUBQUERIES
      ∧ validate cfgRO "SELECT ((((((1))))))" = (true, none) := by decide

/-- C9 amended: in strict mode, a statement whose absolute difference
between the counts of opening and closing parentheses exceeds
`MAX_SUBQUERIES` is rejected by `validate` (as too complex when the
earlier checks pass). -/
theorem paren_imbalance_rejected (v : SQLValidator) (sql : String)
    (hs : v.strict_mode = true)
    (him : (((countChar '(' sql : Int) - (countChar ')' sql : Int)).natAbs
      > MAX_SUBQUERIES)) :
    (validate v sql).1 = false := by
  cases hb : (validate v sql).1 with
  | false => rfl
  | true =>
    exfalso
    have hrc := (validate_fst_true_iff v sql).mp hb
    have hcx := ((runChecks_eq_none_iff v sql).mp hrc).2.2.2.2.2.1 hs
    have hne : checkComplexity sql ≠ none := by
      unfold checkComplexity
      by_cases hj : countWord (strUpper sql) "JOIN" > MAX_JOINS
      · simp [hj]
      · simp [hj, him]
    exact hne hcx

theorem paren_imbalance_rejected_wit :
    cfgRO.strict_mode = true
      ∧ (((countChar '(' "SELECT ((((((1" : Int)
            - (countChar ')' "SELECT ((((((1" : Int)).natAbs > MAX_SUBQUERIES)
      ∧ (validate cfgRO "SELECT ((((((1").1 = false :=
  ⟨by decide, by decide,
    paren_imbalance_rejected cfgRO "SELECT ((((((1" rfl (by decide)⟩

/-- C4 counterexample: a valid DELETE whose row-impact estimate is
unavailable (`none`) is executed by `execute_write`, not rejected: the
source's ceiling check reads `if estimated is not None and ...`, so a
missing estimate skips the gate. -/
theorem estimate_none_executes_cex :
    (validate cfgRW "DELETE FROM users WHERE id = 3").1 = true
      ∧ execute_write cfgRW 100 "DELETE FROM users WHERE id = 3" none 7
        = .executed ⟨true, 7, "DELETE", some "users"⟩ := by decide

/-- C4 amended: when the row-impact estimate is unavailable (`none`),
`execute_write` applies no ceiling and proceeds to execute any statement
that passed validation; it rejects on the ceiling only when a numeric
estimate exceeding `max_write_rows` is available. -/
theorem estimate_none_proceeds (v : SQLValidator) (max_write_rows : Nat)
    (sql : String) (db_affected : Nat)
    (hv : (validate v sql).1 = true) :
    execute_write v max_write_rows sql none db_affected
      = .executed ⟨true, db_affected, getQueryType sql,
          extractWriteTargetTable sql (getQueryType sql)⟩ := by
  have hp := validate_eq_of_fst_true v sql hv
  unfold execute_write
  rw [hp]

theorem estimate_none_proceeds_wit :
    execute_write cfgRW 500 "UPDATE users SET x = 2 WHERE id = 3" none 42
      = .executed ⟨true, 42, "UPDATE", some "users"⟩ :=
  estimate_none_proceeds cfgRW 500 "UPDATE users SET x = 2 WHERE id = 3" 42
    (by decide)

/-- C5: whenever the row-impact estimate exceeds `max_write_rows`,
`preview_write` returns an invalid preview with a non-empty error and
`execute_write` raises (is rejected) without executing. -/
theorem over_limit_estimate_blocks (v : SQLValidator) (max_write_rows : Nat)
    (sql sanitized : String) (n db_affected : Nat) (hn : n > max_write_rows) :
    (preview_write v max_write_rows sql sanitized (some n)).valid = false
      ∧ (preview_write v max_write_rows sql sanitized (some n)).error ≠ none
      ∧ ∃ e, execute_write v max_write_rows sql (some n) db_affected
          = .rejected e := by
  cases hb : (validate v sql).1 with
  | true =>
    have hp := validate_eq_of_fst_true v sql hb
    unfold preview_write execute_write
    rw [hp]
    simp [hn]
  | false =>
    obtain ⟨e, hp⟩ := validate_false_of_fst_false v sql hb
    unfold preview_write execute_write
    rw [hp]
    simp

theorem over_limit_estimate_blocks_wit :
    (preview_write cfgRW 100 "DELETE FROM logs WHERE id = 3"
        "DELETE FROM logs WHERE id = 3" (some 101)).valid = false
      ∧ (preview_write cfgRW 100 "DELETE FROM logs WHERE id = 3"
          "DELETE FROM logs WHERE id = 3" (some 101)).error ≠ none
      ∧ ∃ e, execute_write cfgRW 100 "DELETE FROM logs WHERE id = 3"
          (some 101) 5 = .rejected e :=
  over_limit_estimate_blocks cfgRW 100 "DELETE FROM logs WHERE id = 3"
    "DELETE FROM logs WHERE id = 3" 101 5 (by decide)

/-- Running any sequence of previews leaves the executor object
unchanged: the source method never assigns an attribute of `self`. -/
theorem run_previews_id (s : QueryExecutorState)
    (calls : List (String × String × Option Nat)) :
    run_previews s calls = s := by
  induction calls generalizing s with
  | nil => rfl
  | cons c rest ih =>
    obtain ⟨sql, san, est⟩ := c
    exact ih s

/-- C6: the outcome of `execute_write` is a function of the submitted
SQL text and the executor's fixed configuration (plus the database
oracles): running any number of `preview_write` calls beforehand, with
any texts and estimates, leaves it unchanged — no preview state is
consulted. -/
theorem confirm_independent_of_previews (s : QueryExecutorState)
    (calls : List (String × String × Option Nat)) (sql : String)
    (estimate : Option Nat) (db_affected : Nat) :
    (execute_write_m (run_previews s calls) sql estimate db_affected).2
      = (execute_write_m s sql estimate db_affected).2 := by
  rw [run_previews_id]

/-- C8: a statement reaching the read path's limiting step without
LIMIT as a case-insensitive substring is executed as that statement
(with trailing semicolons stripped) plus an appended
`LIMIT max_rows;` clause — so the result always carries a LIMIT — and a
statement already containing LIMIT passes through unchanged. -/
theorem ensure_limit_spec (max_rows : Nat) (sql : String) :
    (strContains (strUpper sql) "LIMIT" = false →
        ensure_limit max_rows sql
            = rstripSemi sql ++ " LIMIT " ++ toString max_rows ++ ";"
          ∧ strContains (strUpper (ensure_limit max_rows sql)) "LIMIT" = true)
      ∧ (strContains (strUpper sql) "LIMIT" = true →
          ensure_limit max_rows sql = sql) := by
  constructor
  · intro h
    have he : ensure_limit max_rows sql
        = rstripSemi sql ++ " LIMIT " ++ toString max_rows ++ ";" := by
      simp [ensure_limit, h]
    refine ⟨he, ?_⟩
    rw [he]
    exact strContains_upper_limit _ _
  · intro h
    simp [ensure_limit, h]

theorem ensure_limit_spec_wit :
    ensure_limit 5 "SELECT 1;" = "SELECT 1 LIMIT 5;"
      ∧ ensure_limit 5 "SELECT 1 LIMIT 2" = "SELECT 1 LIMIT 2" := by
  constructor
  · have h := ((ensure_limit_spec 5 "SELECT 1;").1 (by decide)).1
    rw [h]; decide
  · exact (ensure_limit_spec 5 "SELECT 1 LIMIT 2").2 (by decide)

/-- C10: `validate` is total and coherent: the Boolean verdict is true
exactly when no error message is attached; the result is `(true, none)`
exactly when every check of the source's try-block passes; and a false
verdict always carries a non-empty error message. -/
theorem validate_total_spec (v : SQLValidator) (sql : String) :
    ((validate v sql).1 = true ↔ (validate v sql).2 = none)
      ∧ (validate v sql = (true, none) ↔
          (checkLength sql = none
            ∧ checkDdlForbidden v sql = none
            ∧ checkForbiddenFunctions sql = none
            ∧ checkAllowedOperations v sql = none
            ∧ (isWriteQuery sql = true → checkWriteSafety v sql = none)
            ∧ (v.strict_mode = true → checkComplexity sql = none)
            ∧ checkSyntax sql = none))
      ∧ ((validate v sql).1 = false → ∃ e, (validate v sql).2 = some e) := by
  refine ⟨?_, ?_, ?_⟩
  · unfold validate; cases h : runChecks v sql <;> simp
  · rw [← runChecks_eq_none_iff]
    unfold validate; cases h : runChecks v sql <;> simp
  · intro h
    obtain ⟨e, hp⟩ := validate_false_of_fst_false v sql h
    exact ⟨e, by rw [hp]⟩

theorem validate_total_spec_wit :
    ∃ e, (validate cfgRO "DROP TABLE t").2 = some e :=
  (validate_total_spec cfgRO "DROP TABLE t").2.2 (by decide)

end PgMcp
